import Mathlib

/-!
Shallow embedding of the authorization and session handler of OS.js
(src/server/node/core/handler.js).  The callback based functions of the
source are modelled as pure functions from their inputs, including the
results of external collaborators (the session store, the filesystem,
JSON parsing, the VFS path resolver), to an explicit outcome value.
-/

namespace OSJS

/-- JS value held in one session slot: absent (undefined), the null value,
or a string. -/
inductive SessVal
  | undef
  | null
  | str (s : String)
deriving DecidableEq, Repr

/-- JS truthiness of a session slot value: undefined, null and the empty
string are falsy. -/
def SessVal.falsy : SessVal → Bool
  | .undef => true
  | .null => true
  | .str s => s == ""

/-- Predicate for a slot that holds no string value (undefined or null). -/
def SessVal.notPresent : SessVal → Bool
  | .undef => true
  | .null => true
  | .str _ => false

/-- Session store as used by handler.js: request.session.get and set on the
two keys username and groups. -/
structure Session where
  username : SessVal
  groups : SessVal
deriving DecidableEq, Repr

/-- Model of getUserName (handler.js line 138): returns
request.session.get of the username key. -/
def getUserName (s : Session) : SessVal := s.username

/-- Result of JSON.parse as far as the group machinery observes it: the
JSON null value, an array of strings, or any other JSON value. -/
inductive JsVal
  | vnull
  | varr (xs : List String)
  | vother
deriving DecidableEq, Repr

/-- Model of JSON.parse applied to a session slot value.  JSON.parse
coerces its argument to a string first: undefined becomes the text
undefined, which is a syntax error, so the call throws (modelled as
none); null becomes the text null, which parses to the JSON null value
without throwing; a stored string s is handed to the parser, where none
models a thrown SyntaxError. -/
def jsonParseStored (parse : String → Option JsVal) : SessVal → Option JsVal
  | .undef => none
  | .null => some .vnull
  | .str s => parse s

/-- Model of getUserGroups (handler.js lines 150 to 158): the variable
groups starts as the empty array, is reassigned to JSON.parse of the
stored slot value, and the catch block resets it to the empty array only
when the parse throws. -/
def getUserGroupsJs (parse : String → Option JsVal) (s : Session) : JsVal :=
  match jsonParseStored parse s.groups with
  | none => .varr []
  | some v => v

/-- Requirement value as found in the configuration maps or in package
metadata: absent or null, a boolean, a single string, or an array of
strings. -/
inductive GroupReq
  | noneReq
  | boolReq (b : Bool)
  | strReq (s : String)
  | listReq (l : List String)
deriving DecidableEq, Repr

/-- Element of a normalized requirement array.  The source may wrap the
boolean true into a one element array, so elements are strings or
booleans. -/
inductive JsPrim
  | pstr (s : String)
  | pbool (b : Bool)
deriving DecidableEq, Repr

/-- Model of the normalization prologue of _checkHasGroup (handler.js
lines 366 to 369): groupnames is replaced by the empty array when falsy
(undefined, null, false, or the empty string), and a remaining non array
truthy value is wrapped into a one element array. -/
def normalizeGroupnames : GroupReq → List JsPrim
  | .noneReq => []
  | .boolReq b => if b then [.pbool true] else []
  | .strReq s => if s == "" then [] else [.pstr s]
  | .listReq l => l.map .pstr

/-- Strict equality membership test performed by groups.indexOf(p): a
boolean element never equals a string group name. -/
def jsIncludes (groups : List String) : JsPrim → Bool
  | .pstr s => groups.contains s
  | .pbool _ => false

/-- Model of the decision computed by _checkHasGroup (handler.js lines 365
to 391).  After the normalization prologue the requirement is always an
array, so the typeof boolean test in the source can never fire.  When the
user groups do not contain admin, every normalized requirement element
must be present in the user groups; otherwise the result is true.  The
userGroups argument is the decoded result of getUserGroups. -/
def checkHasGroupAllowed (userGroups : List String) (req : GroupReq) : Bool :=
  let gn := normalizeGroupnames req
  if userGroups.contains "admin" = false then
    gn.all (jsIncludes userGroups)
  else
    true

/-- JS truthiness of a requirement value read out of a configuration map
or package metadata: a missing key, null, false and the empty string are
falsy; any array (even the empty one) is truthy. -/
def reqTruthy : Option GroupReq → Bool
  | none => false
  | some .noneReq => false
  | some (.boolReq b) => b
  | some (.strReq s) => s != ""
  | some (.listReq _) => true

/-- Observable outcome of one privilege check invocation: the callback was
invoked with (false, true); the callback was invoked with an error
message; or an exception escaped and the callback was never invoked. -/
inductive Outcome
  | allow
  | deny (msg : String)
  | thrown
deriving DecidableEq, Repr

def sessionDenyMsg : String := "You have no OS.js Session, please log in!"

def apiDenyMsg : String := "You are not allowed to use this API function!"

def vfsDenyMsg : String := "You are not allowed to use this VFS function!"

def pkgDenyMsg : String := "You are not allowed to load this Package"

/-- Model of _checkHasSession (handler.js lines 403 to 409): when the
server is not in nw mode and getUserName is falsy, the callback receives
the session error; otherwise it receives (false, true), modelled as
none. -/
def checkHasSession (nw : Bool) (sess : Session) : Option String :=
  if !nw && (getUserName sess).falsy then some sessionDenyMsg else none

abbrev GroupMap := List (String × GroupReq)

/-- Model of _checkHasAPIPrivilege (handler.js lines 439 to 452).  The
source reads map[privilege] only as a truthiness gate and then passes the
method name privilege itself to _checkHasGroup as the requirement, not
the looked up value.  The callback turns a false group result into the
API denial message. -/
def checkHasAPIPrivilege (apiGroups : Option GroupMap) (userGroups : List String)
    (privilege : String) : Outcome :=
  match apiGroups with
  | none => .allow
  | some m =>
    if privilege != "" && reqTruthy (m.lookup privilege) then
      if checkHasGroupAllowed userGroups (.strReq privilege) then .allow
      else .deny apiDenyMsg
    else .allow

/-- Model of checkAPIPrivilege (handler.js lines 214 to 223): session gate
first, then the API privilege resolution. -/
def checkAPIPrivilege (nw : Bool) (sess : Session) (apiGroups : Option GroupMap)
    (userGroups : List String) (privilege : String) : Outcome :=
  match checkHasSession nw sess with
  | some e => .deny e
  | none => checkHasAPIPrivilege apiGroups userGroups privilege

/-- Outcome of the external VFS path resolver getRealPath at handler.js
line 465: it may throw, return a null or undefined value, or return a
mount object whose protocol property may be absent. -/
inductive ResolveRes
  | throws
  | retNull
  | retMount (protocol : Option String)
deriving DecidableEq, Repr

/-- Model of the regex replace of a single trailing scheme separator used
at handler.js line 470. -/
def stripTrailingScheme (s : String) : String :=
  if s.endsWith "://" then s.dropRight 3 else s

/-- Value of the variable against after the try block of
_checkHasVFSPrivilege (handler.js lines 469 to 471): the lookup succeeds
only when the resolver returned a mount with a protocol and the vfs
groups map exists; every exception inside the try leaves against
undefined. -/
def vfsAgainst (resolve : ResolveRes) (vfsGroups : Option GroupMap) : Option GroupReq :=
  match resolve, vfsGroups with
  | .retMount (some p), some m => m.lookup (stripTrailingScheme p)
  | _, _ => none

/-- Model of _checkHasVFSPrivilege (handler.js lines 464 to 484).  The
getRealPath call on line 465 sits outside the try block, so an exception
thrown by the resolver escapes the function and the callback never runs;
only the protocol extraction and table lookup are guarded.  A truthy
requirement is group checked, anything else allows. -/
def checkHasVFSPrivilege (resolve : ResolveRes) (vfsGroups : Option GroupMap)
    (userGroups : List String) : Outcome :=
  if resolve = .throws then .thrown
  else
    match vfsAgainst resolve vfsGroups with
    | some r =>
      if reqTruthy (some r) then
        if checkHasGroupAllowed userGroups r then .allow else .deny vfsDenyMsg
      else .allow
    | none => .allow

/-- Model of checkVFSPrivilege (handler.js lines 241 to 250): session gate
first, then the VFS privilege resolution. -/
def checkVFSPrivilege (nw : Bool) (sess : Session) (resolve : ResolveRes)
    (vfsGroups : Option GroupMap) (userGroups : List String) : Outcome :=
  match checkHasSession nw sess with
  | some e => .deny e
  | none => checkHasVFSPrivilege resolve vfsGroups userGroups

/-- Package metadata record: the groups property may be absent or hold any
requirement value. -/
structure PkgMeta where
  groups : Option GroupReq
deriving DecidableEq, Repr

abbrev PkgMap := List (String × PkgMeta)

/-- Model of _checkHasBlacklistedPackage (handler.js lines 422 to 430):
the result is an error from getUserBlacklistedPackages, or the membership
of the package name in the returned list. -/
def checkHasBlacklistedPackage (blRes : Except String (List String))
    (pkg : String) : Except String Bool :=
  match blRes with
  | .error e => .error e
  | .ok list => .ok (list.contains pkg)

/-- Model of _checkHasPackagePrivilege (handler.js lines 495 to 525).  The
check fires only when the metadata registry, the package entry and its
groups property are all truthy.  The group check never reports an error,
so the error branch on line 505 is unreachable.  After a successful group
check the blacklist result res is consumed by the condition err or not
res on line 510: a package that is not blacklisted is denied with the
default message, a blacklisted one is allowed. -/
def checkHasPackagePrivilege (metadata : Option PkgMap) (userGroups : List String)
    (blRes : Except String (List String)) (pkg : String) : Outcome :=
  match metadata with
  | none => .allow
  | some pkgs =>
    match pkgs.lookup pkg with
    | none => .allow
    | some meta =>
      match meta.groups with
      | none => .allow
      | some r =>
        if reqTruthy (some r) then
          if checkHasGroupAllowed userGroups r then
            match checkHasBlacklistedPackage blRes pkg with
            | .error e => .deny e
            | .ok res => if !res then .deny pkgDenyMsg else .allow
          else .deny pkgDenyMsg
        else .allow

/-- Model of checkPackagePrivilege (handler.js lines 267 to 276): session
gate first, then the package privilege resolution. -/
def checkPackagePrivilege (nw : Bool) (sess : Session) (metadata : Option PkgMap)
    (userGroups : List String) (blRes : Except String (List String))
    (pkg : String) : Outcome :=
  match checkHasSession nw sess with
  | some e => .deny e
  | none => checkHasPackagePrivilege metadata userGroups blRes pkg

def ignorePrivilegesAPI : List String := ["login"]

def ignorePrivilegesVFS : List String := ["getMime", "getRealPath"]

/-- Registered method value: a raw handler function, or a handler wrapped
by the API privilege wrapper or by the VFS privilege wrapper. -/
inductive MethodVal
  | raw (id : Nat)
  | apiWrapped (inner : MethodVal)
  | vfsWrapped (inner : MethodVal)
deriving DecidableEq, Repr

/-- Number of wrapping layers around the underlying handler. -/
def wrapLayers : MethodVal → Nat
  | .raw _ => 0
  | .apiWrapped m => 1 + wrapLayers m
  | .vfsWrapped m => 1 + wrapLayers m

/-- Number of privilege check calls performed when the stored value is
invoked once: an API wrapper runs checkAPIPrivilege once before the inner
function; a VFS wrapper runs checkAPIPrivilege on the fs privilege and
then checkVFSPrivilege before the inner function. -/
def privilegeChecksPerInvocation : MethodVal → Nat
  | .raw _ => 0
  | .apiWrapped m => 1 + privilegeChecksPerInvocation m
  | .vfsWrapped m => 2 + privilegeChecksPerInvocation m

abbrev MethodTable := List (String × MethodVal)

/-- Model of registerAPIMethod (handler.js lines 47 to 64): nothing
happens when instance.api already holds a truthy entry for fn; otherwise
the handler is stored raw for names on the API ignore list and wrapped
with the API privilege check for all other names. -/
def registerAPIMethod (api : MethodTable) (fn : String) (fref : MethodVal) : MethodTable :=
  match api.lookup fn with
  | some _ => api
  | none =>
    if ignorePrivilegesAPI.contains fn then (fn, fref) :: api
    else (fn, .apiWrapped fref) :: api

/-- Model of registerVFSMethod (handler.js lines 70 to 94): nothing
happens when instance.vfs already holds a truthy entry for fn; otherwise
the handler is stored raw for names on the VFS ignore list and wrapped
with the fs API check plus the VFS privilege check for all other
names. -/
def registerVFSMethod (vfs : MethodTable) (fn : String) (fref : MethodVal) : MethodTable :=
  match vfs.lookup fn with
  | some _ => vfs
  | none =>
    if ignorePrivilegesVFS.contains fn then (fn, fref) :: vfs
    else (fn, .vfsWrapped fref) :: vfs

/-- User record assembled at login time. -/
structure UserData where
  id : Nat
  username : String
  name : String
  groups : List String
deriving DecidableEq, Repr

/-- Model of JSON.stringify on an array of group names (escaping inside
the names is not modelled; group names are taken verbatim). -/
def stringifyGroups (gs : List String) : String :=
  "[" ++ String.intercalate "," (gs.map (fun g => "\"" ++ g ++ "\"")) ++ "]"

/-- Model of setUserData (handler.js lines 187 to 197): the explicit null
argument used by logout sets both session keys to null; a user record
stores the username and the JSON serialized groups.  The callback always
receives (false, true). -/
def setUserData (_s : Session) (d : Option UserData) : Session × (Bool × Bool) :=
  match d with
  | none =>
    (({ username := SessVal.null, groups := SessVal.null } : Session), (false, true))
  | some data =>
    (({ username := SessVal.str data.username,
        groups := SessVal.str (stringifyGroups data.groups) } : Session), (false, true))

/-- Session effect of onLogin (handler.js line 329): the session is
updated through setUserData with the login record's userData. -/
def onLoginSession (s : Session) (d : UserData) : Session :=
  (setUserData s (some d)).1

/-- Model of onLogout (handler.js lines 344 to 348): setUserData with null
clears the session, then the callback receives (false, true). -/
def onLogout (s : Session) : Session × (Bool × Bool) :=
  ((setUserData s none).1, (false, true))

/-- Configuration record consumed by the system login flow. -/
structure SysCfg where
  groups : String
  blacklist : String
  settings : String
deriving DecidableEq, Repr

/-- Replacement of the first occurrence of a pattern, as performed by the
JS String.replace with a string pattern. -/
def replaceFirst (s pat repl : String) : String :=
  match s.splitOn pat with
  | [] => s
  | [x] => x
  | x :: rest => x ++ repl ++ String.intercalate pat rest

/-- Model of getSettingsPath (handler.js lines 36 to 41): the root user
maps to the fixed path, every other username is substituted into the
configured template. -/
def getSettingsPath (cfg : SysCfg) (username : String) : String :=
  if username = "root" then "/root"
  else replaceFirst cfg.settings "%USERNAME%" username

/-- Model of the getUserSettings closure of onSystemLogin (handler.js
lines 564 to 574): a read error or empty data yields the empty object,
a parse error is swallowed and also yields the empty object.  The file
system is modelled as a map from path to optional content (none is a
read error) and JSON.parse of an object as an association list parser. -/
def sysUserSettings (fsRead : String → Option String)
    (parseObj : String → Option (List (String × String)))
    (cfg : SysCfg) (username : String) : List (String × String) :=
  match fsRead (getSettingsPath cfg username) with
  | none => []
  | some sdata =>
    if sdata == "" then []
    else (parseObj sdata).getD []

/-- Model of the getUserGroups closure of onSystemLogin (handler.js lines
551 to 562): a read error or parse error leaves the mapping empty, and a
username missing from the mapping falls back to the empty list. -/
def sysUserGroups (fsRead : String → Option String)
    (parseMap : String → Option (List (String × List String)))
    (cfg : SysCfg) (username : String) : List String :=
  match fsRead cfg.groups with
  | none => []
  | some gdata =>
    match parseMap gdata with
    | none => []
    | some list => (list.lookup username).getD []

/-- Model of the getUserBlacklist closure of onSystemLogin (handler.js
lines 576 to 588): a read error, empty data, a parse error, or a missing
username all yield the empty list. -/
def sysUserBlacklist (fsRead : String → Option String)
    (parseBl : String → Option (List (String × List String)))
    (cfg : SysCfg) (username : String) : List String :=
  match fsRead cfg.blacklist with
  | none => []
  | some bdata =>
    if bdata == "" then []
    else
      match parseBl bdata with
      | none => []
      | some m => (m.lookup username).getD []

/-- Record handed to onLogin by the done closure of onSystemLogin. -/
structure SysLoginRecord where
  userData : UserData
  userSettings : List (String × String)
  blacklistedPackages : List String
deriving DecidableEq, Repr

/-- Model of onSystemLogin (handler.js lines 548 to 617): the four lookups
run and the done closure assembles the user record with id from the
external getUserId result, username from the login object, name set to
the login username, and the groups from the groups file lookup. -/
def onSystemLogin (fsRead : String → Option String)
    (parseObj : String → Option (List (String × String)))
    (parseMap parseBl : String → Option (List (String × List String)))
    (cfg : SysCfg) (loginUsername : String) (uid : Nat) : SysLoginRecord :=
  let settings := sysUserSettings fsRead parseObj cfg loginUsername
  let groups := sysUserGroups fsRead parseMap cfg loginUsername
  let blacklist := sysUserBlacklist fsRead parseBl cfg loginUsername
  { userData :=
      { id := uid, username := loginUsername, name := loginUsername, groups := groups },
    userSettings := settings,
    blacklistedPackages := blacklist }

/-- Model of JSON.stringify on a flat settings object (escaping inside
keys and values is not modelled). -/
def stringifyObj (o : List (String × String)) : String :=
  "\x7b" ++ String.intercalate ","
    (o.map (fun p => "\"" ++ p.1 ++ "\":\"" ++ p.2 ++ "\"")) ++ "\x7d"

/-- Observable result of one onSystemSettings invocation: the path and
payload handed to writeFile and the pair passed to the callback. -/
structure SettingsWriteResult where
  path : String
  payload : String
  cb : Option String × Bool
deriving DecidableEq, Repr

/-- Model of onSystemSettings (handler.js lines 632 to 643): the settings
are serialized, the path is derived from the session username, the mkdir
callback ignores its error argument so the write is attempted regardless
of the mkdir outcome, and the callback receives err or false together
with the double negation of err. -/
def onSystemSettings (cfg : SysCfg) (uname : String)
    (settings : List (String × String)) (mkdirErr : Option String)
    (write : String → String → Option String) : SettingsWriteResult :=
  let data := stringifyObj settings
  let spath := getSettingsPath cfg uname
  match mkdirErr, write spath data with
  | _, some e => { path := spath, payload := data, cb := (some e, true) }
  | _, none => { path := spath, payload := data, cb := (none, false) }

/-- Predicate transcribed from the words of claim C4: allow exactly when
the requirement is the boolean false or absent, or the user groups
contain admin, or the user groups are a superset of the required set,
with a single string requirement read as a one element set; every other
case denies. -/
def specGroupAllows (userGroups : List String) : GroupReq → Bool
  | .noneReq => true
  | .boolReq b => !b || userGroups.contains "admin"
  | .strReq s => userGroups.contains "admin" || userGroups.contains s
  | .listReq l => userGroups.contains "admin" || l.all userGroups.contains

/-- Predicate of claim C4 amended by the counterexample: the empty string
requirement is falsy, so the source normalization turns it into theempty
requirement and always allows it, exactly like the boolean false and the
absent requirement. -/
def specGroupAllowsAmended (userGroups : List String) : GroupReq → Bool
  | .noneReq => true
  | .boolReq b => !b || userGroups.contains "admin"
  | .strReq s => s == "" || userGroups.contains "admin" || userGroups.contains s
  | .listReq l => userGroups.contains "admin" || l.all userGroups.contains

/-- Helper: the membership test over a normalized list of string elements
coincides with plain membership of each name in the user groups. -/
lemma all_map_pstr (g l : List String) :
    (l.map JsPrim.pstr).all (jsIncludes g) = l.all g.contains := by
  induction l with
  | nil => rfl
  | cons x xs ih => simp [jsIncludes, ih]

/-- C4 counterexample: with the empty string as requirement and a user
holding no groups, the source allows (the empty string is falsy and the
normalization replaces it by the empty array), while the claim reads a
single string requirement as a one element set and demands denial. -/
theorem c4_empty_string_requirement_counterexample :
    checkHasGroupAllowed [] (.strReq "") = true ∧
    specGroupAllows [] (.strReq "") = false := by
  decide

/-- C4 (amended): the group evaluation of _checkHasGroup allows exactly
when the requirement is falsy (boolean false, absent, or the empty
string), or the user groups contain admin, or the user groups are a
superset of the required set (a single non empty string being a one
element set); the boolean true requirement is satisfied only through
admin. -/
theorem c4_group_evaluation_characterization (g : List String) (req : GroupReq) :
    checkHasGroupAllowed g req = specGroupAllowsAmended g req := by
  cases req with
  | noneReq =>
    by_cases h : g.contains "admin" = true <;>
      simp [checkHasGroupAllowed, normalizeGroupnames, specGroupAllowsAmended, h]
  | boolReq b =>
    cases b <;> by_cases h : g.contains "admin" = true <;>
      simp [checkHasGroupAllowed, normalizeGroupnames, specGroupAllowsAmended,
        jsIncludes, h]
  | strReq s =>
    by_cases hs : s == "" <;> by_cases h : g.contains "admin" = true <;>
      simp [checkHasGroupAllowed, normalizeGroupnames, specGroupAllowsAmended,
        jsIncludes, h, hs]
  | listReq l =>
    by_cases h : g.contains "admin" = true <;>
      simp [checkHasGroupAllowed, normalizeGroupnames, specGroupAllowsAmended,
        jsIncludes, h, all_map_pstr]

/-- C1: the code evaluated at the specification scenario: package foo/bar
carries the groups requirement editors, the user holds editors, the
session is authenticated, and the blacklist is empty (the package is not
blacklisted), yet the pipeline denies with the package message, because
the condition err or not res at handler.js line 510 inverts the
blacklist gate: only blacklisted packages reach the allow branch. -/
theorem c1_package_blacklist_gate_eval :
    checkPackagePrivilege false ⟨.str "user", .str "x"⟩
      (some [("foo/bar", ⟨some (.listReq ["editors"])⟩)])
      ["editors"] (.ok []) "foo/bar" = .deny pkgDenyMsg := by
  decide

/-- C2: the code evaluated at a failing input: the configuration maps the
method doStuff to the requirement users and the user holds exactly the
group users, so the claim demands allow; but handler.js line 442 passes
the method name privilege instead of the looked up requirement to
_checkHasGroup, so the user would need a group literally named doStuff,
and the check denies with the API message. -/
theorem c2_api_privilege_eval :
    checkAPIPrivilege false ⟨.str "user", .str "x"⟩
      (some [("doStuff", .listReq ["users"])]) ["users"] "doStuff" =
      .deny apiDenyMsg := by
  decide

/-- C3 counterexample: with an authenticated session and a configured vfs
groups table, a resolver that throws makes checkVFSPrivilege propagate
the exception (the callback never runs), so the check does not allow as
the claim states. -/
theorem c3_resolver_throw_counterexample :
    checkVFSPrivilege false ⟨.str "user", .null⟩ .throws
      (some [("home", .listReq ["x"])]) [] = .thrown ∧
    Outcome.thrown ≠ Outcome.allow := by
  decide

/-- C3 (amended): for a request that passes the session gate, an
exception from the mount resolver itself propagates out of
checkVFSPrivilege and the callback never runs; when the resolver
returns and the protocol extraction or table lookup yields no truthy
requirement, the check allows (fail open); and a truthy requirement is
group checked, denying with the VFS message on failure. -/
theorem c3_vfs_fail_open (nw : Bool) (sess : Session) (resolve : ResolveRes)
    (vfsGroups : Option GroupMap) (userGroups : List String)
    (hsess : checkHasSession nw sess = none) :
    (resolve = .throws →
      checkVFSPrivilege nw sess resolve vfsGroups userGroups = .thrown) ∧
    (resolve ≠ .throws → reqTruthy (vfsAgainst resolve vfsGroups) = false →
      checkVFSPrivilege nw sess resolve vfsGroups userGroups = .allow) ∧
    (∀ r, vfsAgainst resolve vfsGroups = some r → reqTruthy (some r) = true →
      checkVFSPrivilege nw sess resolve vfsGroups userGroups =
        (if checkHasGroupAllowed userGroups r then .allow else .deny vfsDenyMsg)) := by
  refine ⟨?_, ?_, ?_⟩
  · intro h
    subst h
    simp [checkVFSPrivilege, hsess, checkHasVFSPrivilege]
  · intro hnt hfa
    cases hx : vfsAgainst resolve vfsGroups with
    | none => simp [checkVFSPrivilege, hsess, checkHasVFSPrivilege, hnt, hx]
    | some r =>
      rw [hx] at hfa
      simp [checkVFSPrivilege, hsess, checkHasVFSPrivilege, hnt, hx, hfa]
  · intro r hx ht
    cases resolve with
    | throws => simp [vfsAgainst] at hx
    | retNull => simp [vfsAgainst] at hx
    | retMount p => simp [checkVFSPrivilege, hsess, checkHasVFSPrivilege, hx, ht]

/-- Witness for the amended C3 theorem: an authenticated session, a
resolver returning null, and a configured table still give allow. -/
theorem c3_vfs_fail_open_witness :
    checkVFSPrivilege false ⟨.str "alice", .null⟩ .retNull
      (some [("home", .listReq ["x"])]) [] = .allow :=
  (c3_vfs_fail_open false ⟨.str "alice", .null⟩ .retNull
      (some [("home", .listReq ["x"])]) [] (by decide)).2.1 (by decide) (by decide)

/-- C5: the session gate: outside nw mode a falsy username makes all
three public checks fail with the session error for every configuration,
group set, resolver outcome, metadata and blacklist, so no further logic
is consulted; in nw mode the session gate always passes and each check
reduces to its specific privilege resolution. -/
theorem c5_session_gate (nw : Bool) (sess : Session)
    (apiGroups vfsGroups : Option GroupMap) (metadata : Option PkgMap)
    (userGroups : List String) (resolve : ResolveRes)
    (blRes : Except String (List String)) (privilege pkg : String) :
    (nw = false → (getUserName sess).falsy = true →
      checkAPIPrivilege nw sess apiGroups userGroups privilege = .deny sessionDenyMsg ∧
      checkVFSPrivilege nw sess resolve vfsGroups userGroups = .deny sessionDenyMsg ∧
      checkPackagePrivilege nw sess metadata userGroups blRes pkg = .deny sessionDenyMsg) ∧
    (nw = true →
      checkAPIPrivilege nw sess apiGroups userGroups privilege =
        checkHasAPIPrivilege apiGroups userGroups privilege ∧
      checkVFSPrivilege nw sess resolve vfsGroups userGroups =
        checkHasVFSPrivilege resolve vfsGroups userGroups ∧
      checkPackagePrivilege nw sess metadata userGroups blRes pkg =
        checkHasPackagePrivilege metadata userGroups blRes pkg) := by
  constructor
  · intro hnw hf
    subst hnw
    refine ⟨?_, ?_, ?_⟩ <;>
      simp [checkAPIPrivilege, checkVFSPrivilege, checkPackagePrivilege,
        checkHasSession, hf]
  · intro hnw
    subst hnw
    refine ⟨?_, ?_, ?_⟩ <;>
      simp [checkAPIPrivilege, checkVFSPrivilege, checkPackagePrivilege,
        checkHasSession]

/-- Witness for the C5 theorem: an anonymous session outside nw mode is
rejected by all three checks with the session message. -/
theorem c5_session_gate_witness :
    checkAPIPrivilege false ⟨.undef, .undef⟩ none [] "x" = .deny sessionDenyMsg ∧
    checkVFSPrivilege false ⟨.undef, .undef⟩ .retNull none [] = .deny sessionDenyMsg ∧
    checkPackagePrivilege false ⟨.undef, .undef⟩ none [] (.ok []) "p" =
      .deny sessionDenyMsg :=
  (c5_session_gate false ⟨.undef, .undef⟩ none none none [] .retNull
    (.ok []) "x" "p").1 rfl rfl

/-- C6: registration idempotence: a name already present in a method
table is left untouched by both registration functions, registering the
same name twice equals registering it once, and a raw handler registered
twice under a name outside the ignore lists is stored with exactly one
wrapping layer, so its privilege check phase runs once per invocation. -/
theorem c6_registration_idempotent (t : MethodTable) (fn : String)
    (h h2 : MethodVal) (i : Nat) :
    ((t.lookup fn).isSome = true →
      registerAPIMethod t fn h = t ∧ registerVFSMethod t fn h = t) ∧
    registerAPIMethod (registerAPIMethod t fn h) fn h2 = registerAPIMethod t fn h ∧
    registerVFSMethod (registerVFSMethod t fn h) fn h2 = registerVFSMethod t fn h ∧
    (t.lookup fn = none → ignorePrivilegesAPI.contains fn = false →
      (registerAPIMethod (registerAPIMethod t fn (.raw i)) fn h2).lookup fn =
        some (.apiWrapped (.raw i)) ∧
      wrapLayers (.apiWrapped (.raw i)) = 1 ∧
      privilegeChecksPerInvocation (.apiWrapped (.raw i)) = 1) ∧
    (t.lookup fn = none → ignorePrivilegesVFS.contains fn = false →
      (registerVFSMethod (registerVFSMethod t fn (.raw i)) fn h2).lookup fn =
        some (.vfsWrapped (.raw i)) ∧
      wrapLayers (.vfsWrapped (.raw i)) = 1) := by
  refine ⟨?_, ?_, ?_, ?_, ?_⟩
  · intro hs
    obtain ⟨v, hv⟩ := Option.isSome_iff_exists.mp hs
    exact ⟨by simp [registerAPIMethod, hv], by simp [registerVFSMethod, hv]⟩
  · cases hx : t.lookup fn with
    | some v => simp [registerAPIMethod, hx]
    | none =>
      by_cases hc : fn ∈ ignorePrivilegesAPI <;>
        simp [registerAPIMethod, hx, hc, List.lookup]
  · cases hx : t.lookup fn with
    | some v => simp [registerVFSMethod, hx]
    | none =>
      by_cases hc : fn ∈ ignorePrivilegesVFS <;>
        simp [registerVFSMethod, hx, hc, List.lookup]
  · intro hx hc
    have hc' : ¬ fn ∈ ignorePrivilegesAPI := by simpa using hc
    refine ⟨?_, rfl, rfl⟩
    simp [registerAPIMethod, hx, hc', List.lookup]
  · intro hx hc
    have hc' : ¬ fn ∈ ignorePrivilegesVFS := by simpa using hc
    refine ⟨?_, rfl⟩
    simp [registerVFSMethod, hx, hc', List.lookup]

/-- Witness for the C6 theorem at a table that already holds the name and
at an absent name outside the ignore lists. -/
theorem c6_registration_idempotent_witness :
    (registerAPIMethod [("copy", .raw 7)] "copy" (.raw 9) = [("copy", .raw 7)] ∧
      registerVFSMethod [("copy", .raw 7)] "copy" (.raw 9) = [("copy", .raw 7)]) ∧
    (registerAPIMethod (registerAPIMethod [] "curl" (.raw 3)) "curl" (.raw 4)).lookup "curl" =
      some (.apiWrapped (.raw 3)) ∧
    privilegeChecksPerInvocation (.apiWrapped (.raw 3)) = 1 :=
  ⟨(c6_registration_idempotent [("copy", .raw 7)] "copy" (.raw 9) (.raw 9) 0).1 (by decide),
   ((c6_registration_idempotent [] "curl" (.raw 3) (.raw 4) 3).2.2.2.1 rfl (by decide)).1,
   ((c6_registration_idempotent [] "curl" (.raw 3) (.raw 4) 3).2.2.2.1 rfl (by decide)).2.2⟩

/-- C7: login followed immediately by logout on an anonymous session
leaves both session slots cleared (null, so absent or null as the claim
states) and logout reports success through the callback pair. -/
theorem c7_login_logout_roundtrip (s : Session) (d : UserData)
    (_h1 : s.username.notPresent = true) (_h2 : s.groups.notPresent = true) :
    (onLogout (onLoginSession s d)).1.username.notPresent = true ∧
    (onLogout (onLoginSession s d)).1.groups.notPresent = true ∧
    (onLogout (onLoginSession s d)).2 = (false, true) := by
  simp [onLogout, onLoginSession, setUserData, SessVal.notPresent]

/-- Witness for the C7 theorem on the fresh anonymous session. -/
theorem c7_login_logout_roundtrip_witness :
    (onLogout (onLoginSession ⟨.undef, .undef⟩
      ⟨1, "alice", "alice", ["users"]⟩)).1.username.notPresent = true ∧
    (onLogout (onLoginSession ⟨.undef, .undef⟩
      ⟨1, "alice", "alice", ["users"]⟩)).1.groups.notPresent = true ∧
    (onLogout (onLoginSession ⟨.undef, .undef⟩
      ⟨1, "alice", "alice", ["users"]⟩)).2 = (false, true) :=
  c7_login_logout_roundtrip ⟨.undef, .undef⟩ ⟨1, "alice", "alice", ["users"]⟩ rfl rfl

/-- C8: the system login flow is total (no read or parse failure is ever
propagated as an error), it always assembles the user record with the
login username, the name equal to the username and the external user id,
and it substitutes the empty settings object, the empty group list and
the empty blacklist when the respective file cannot be read or parsed. -/
theorem c8_system_login_resilient (fsRead : String → Option String)
    (parseObj : String → Option (List (String × String)))
    (parseMap parseBl : String → Option (List (String × List String)))
    (cfg : SysCfg) (u : String) (uid : Nat) :
    (onSystemLogin fsRead parseObj parseMap parseBl cfg u uid).userData.username = u ∧
    (onSystemLogin fsRead parseObj parseMap parseBl cfg u uid).userData.name = u ∧
    (onSystemLogin fsRead parseObj parseMap parseBl cfg u uid).userData.id = uid ∧
    (fsRead cfg.groups = none →
      (onSystemLogin fsRead parseObj parseMap parseBl cfg u uid).userData.groups = []) ∧
    (∀ s, fsRead cfg.groups = some s → parseMap s = none →
      (onSystemLogin fsRead parseObj parseMap parseBl cfg u uid).userData.groups = []) ∧
    (fsRead (getSettingsPath cfg u) = none →
      (onSystemLogin fsRead parseObj parseMap parseBl cfg u uid).userSettings = []) ∧
    (∀ s, fsRead (getSettingsPath cfg u) = some s → parseObj s = none →
      (onSystemLogin fsRead parseObj parseMap parseBl cfg u uid).userSettings = []) ∧
    (fsRead cfg.blacklist = none →
      (onSystemLogin fsRead parseObj parseMap parseBl cfg u uid).blacklistedPackages = []) ∧
    (∀ s, fsRead cfg.blacklist = some s → parseBl s = none →
      (onSystemLogin fsRead parseObj parseMap parseBl cfg u uid).blacklistedPackages = []) := by
  refine ⟨rfl, rfl, rfl, ?_, ?_, ?_, ?_, ?_, ?_⟩
  · intro hr
    simp [onSystemLogin, sysUserGroups, hr]
  · intro s hr hp
    simp [onSystemLogin, sysUserGroups, hr, hp]
  · intro hr
    simp [onSystemLogin, sysUserSettings, hr]
  · intro s hr hp
    by_cases hs : s == "" <;>
      simp [onSystemLogin, sysUserSettings, hr, hp, hs]
  · intro hr
    simp [onSystemLogin, sysUserBlacklist, hr]
  · intro s hr hp
    by_cases hs : s == "" <;>
      simp [onSystemLogin, sysUserBlacklist, hr, hp, hs]

/-- Witness for the C8 theorem: with every file read failing, the record
is still assembled for alice with empty groups, settings and blacklist. -/
theorem c8_system_login_resilient_witness :
    (onSystemLogin (fun _ => none) (fun _ => none) (fun _ => none) (fun _ => none)
      ⟨"/etc/osjs/groups.json", "/etc/osjs/blacklist.json",
        "/home/%USERNAME%/.osjs/settings.json"⟩ "alice" 1001).userData.groups = [] ∧
    (onSystemLogin (fun _ => none) (fun _ => none) (fun _ => none) (fun _ => none)
      ⟨"/etc/osjs/groups.json", "/etc/osjs/blacklist.json",
        "/home/%USERNAME%/.osjs/settings.json"⟩ "alice" 1001).userSettings = [] ∧
    (onSystemLogin (fun _ => none) (fun _ => none) (fun _ => none) (fun _ => none)
      ⟨"/etc/osjs/groups.json", "/etc/osjs/blacklist.json",
        "/home/%USERNAME%/.osjs/settings.json"⟩ "alice" 1001).userData.name = "alice" :=
  ⟨(c8_system_login_resilient (fun _ => none) (fun _ => none) (fun _ => none)
      (fun _ => none) ⟨"/etc/osjs/groups.json", "/etc/osjs/blacklist.json",
        "/home/%USERNAME%/.osjs/settings.json"⟩ "alice" 1001).2.2.2.1 rfl,
   (c8_system_login_resilient (fun _ => none) (fun _ => none) (fun _ => none)
      (fun _ => none) ⟨"/etc/osjs/groups.json", "/etc/osjs/blacklist.json",
        "/home/%USERNAME%/.osjs/settings.json"⟩ "alice" 1001).2.2.2.2.2.1 rfl,
   (c8_system_login_resilient (fun _ => none) (fun _ => none) (fun _ => none)
      (fun _ => none) ⟨"/etc/osjs/groups.json", "/etc/osjs/blacklist.json",
        "/home/%USERNAME%/.osjs/settings.json"⟩ "alice" 1001).2.1⟩

/-- C9: persistSettings serializes the settings object, writes it to the
path derived from the template with the username substituted (root maps
to the fixed path), ignores the mkdir outcome entirely (the write is
attempted for every mkdir result), reports a write failure as the pair
(error, true) and a success as (false, false). -/
theorem c9_persist_settings (cfg : SysCfg) (uname : String)
    (settings : List (String × String)) (e1 e2 : Option String)
    (write : String → String → Option String) :
    onSystemSettings cfg uname settings e1 write =
      onSystemSettings cfg uname settings e2 write ∧
    (onSystemSettings cfg uname settings e1 write).path =
      (if uname = "root" then "/root"
       else replaceFirst cfg.settings "%USERNAME%" uname) ∧
    (onSystemSettings cfg uname settings e1 write).payload = stringifyObj settings ∧
    (∀ e, write (getSettingsPath cfg uname) (stringifyObj settings) = some e →
      (onSystemSettings cfg uname settings e1 write).cb = (some e, true)) ∧
    (write (getSettingsPath cfg uname) (stringifyObj settings) = none →
      (onSystemSettings cfg uname settings e1 write).cb = (none, false)) := by
  refine ⟨?_, ?_, ?_, ?_, ?_⟩
  · cases hw : write (getSettingsPath cfg uname) (stringifyObj settings) <;>
      simp [onSystemSettings, hw]
  · have hpath : (onSystemSettings cfg uname settings e1 write).path =
        getSettingsPath cfg uname := by
      cases hw : write (getSettingsPath cfg uname) (stringifyObj settings) <;>
        simp [onSystemSettings, hw]
    rw [hpath, getSettingsPath]
  · cases hw : write (getSettingsPath cfg uname) (stringifyObj settings) <;>
      simp [onSystemSettings, hw]
  · intro e hw
    simp [onSystemSettings, hw]
  · intro hw
    simp [onSystemSettings, hw]

/-- Witness for the C9 theorem: settings for alice go to the path built
from the template, and a simulated write failure is reported as the pair
of the error and true. -/
theorem c9_persist_settings_witness :
    (onSystemSettings ⟨"/etc/g", "/etc/b", "/home/%USERNAME%/.settings.json"⟩
      "alice" [("theme", "dark")] (some "eexist") (fun _ _ => some "EIO")).cb =
      (some "EIO", true) :=
  (c9_persist_settings ⟨"/etc/g", "/etc/b", "/home/%USERNAME%/.settings.json"⟩
    "alice" [("theme", "dark")] (some "eexist") none
    (fun _ _ => some "EIO")).2.2.2.1 "EIO" rfl

/-- C10 counterexample: a session whose groups slot holds the JS null
value (exactly the state onLogout leaves behind) makes getUserGroups
return null, not the empty list: JSON.parse(null) parses the text null
and returns the null value without throwing, so the catch never fires. -/
theorem c10_null_groups_counterexample :
    getUserGroupsJs (fun _ => none) ⟨.str "alice", .null⟩ = .vnull ∧
    JsVal.vnull ≠ JsVal.varr [] := by
  decide

/-- C10 (amended): getUserGroups is total and never throws; an absent
slot or a stored string that is not valid JSON yields the empty list, a
stored null yields the JSON null value (not the empty list), and a valid
JSON string yields whatever value it parses to. -/
theorem c10_get_user_groups_total (parse : String → Option JsVal) (s : Session) :
    getUserGroupsJs parse s =
      (match s.groups with
       | .undef => .varr []
       | .null => .vnull
       | .str t => (parse t).getD (.varr [])) := by
  cases hg : s.groups with
  | undef => simp [getUserGroupsJs, jsonParseStored, hg]
  | null => simp [getUserGroupsJs, jsonParseStored, hg]
  | str t =>
    cases hp : parse t <;> simp [getUserGroupsJs, jsonParseStored, hg, hp]

end OSJS
